import Mathlib

/-!
Verification development for the MCP2.0 capability-secured RPC fabric.

Shallow embedding of the repository sources:
  auth.py                (capability / audience matching, delegation proofs, JWKS cache),
  middleware.py          (SimpleCache, CircuitBreaker),
  context_tool_server.py (RequestContext and InvokeTool admission pipelines),
  event_bus_server.py    (per-topic publish sequence counter),
  registry_server.py     (registry lookup and audience filtering).

Python strings are modelled by Lean `String`; the Python operations
`startswith`, `endswith` and slicing `[:-1]` are modelled over the
character list of the string.  Wall-clock times are natural numbers
(seconds).  Network and signature verification are abstracted: functions
take already-decoded token claims, and the pure claim checks that the
sources perform on them are translated branch for branch.
-/

/-- Model of Python `s.startswith(p)`: `p` is a character-prefix of `s`. -/
def pyStartsWith (s p : String) : Bool :=
  p.data.isPrefixOf s.data

/-- Model of Python `s.endswith(p)`: `p` is a character-suffix of `s`. -/
def pyEndsWith (s p : String) : Bool :=
  p.data.isSuffixOf s.data

/-- Model of Python slicing `s[:-1]`: drop the last character. -/
def pyDropLast (s : String) : String :=
  String.mk s.data.dropLast

/-- The `aud` claim of a token: Python allows a string, a list of strings,
or a missing claim (`payload.get("aud")` returning `None`). -/
inductive AudClaim
  | str (s : String)
  | list (l : List String)
  | absent
deriving DecidableEq

/-- Decoded JWT claims, with the fields the sources consult.  A missing
claim is `none` / `.absent`, mirroring `payload.get(...)`. -/
structure Claims where
  iss : Option String := none
  sub : Option String := none
  aud : AudClaim := .absent
  delegatee : Option String := none
  capabilities : Option (List String) := none
deriving DecidableEq

/-- Normalisation of the `aud` claim performed by `auth.has_audience`
(lines 101-105): a scalar becomes a one-element list, `None` becomes `[]`. -/
def audienceList : AudClaim → List String
  | .str s => [s]
  | .list l => l
  | .absent => []

/-- `auth.has_capability` (auth.py lines 82-95): `required` matches some
entry of `payload.get("capabilities", [])`, either exactly or via a
trailing-`*` wildcard whose stem is a character-prefix of `required`. -/
def has_capability (payload : Claims) (required : String) : Bool :=
  (payload.capabilities.getD []).any fun cap =>
    cap == required || (pyEndsWith cap "*" && pyStartsWith required (pyDropLast cap))

/-- `auth.has_audience` (auth.py lines 97-113): same exact-or-wildcard rule
applied to the normalised audience list against `target`. -/
def has_audience (payload : Claims) (target : String) : Bool :=
  (audienceList payload.aud).any fun a =>
    a == target || (pyEndsWith a "*" && pyStartsWith target (pyDropLast a))

/-- The audience validation done inside `jose_jwt.decode(..., audience=expected)`
called from `verify_jwt_token`: the expected audience must appear verbatim
among the token audience values. -/
def decodeAudienceOk (audClaim : AudClaim) (expected : String) : Bool :=
  (audienceList audClaim).contains expected

/-- `auth.verify_delegation_proof` (auth.py lines 115-151), on an
already-signature-verified delegation payload `proof`.  The checks are, in
source order: the `jose` audience check with `audience = delegatee`
(line 132), issuer and subject continuity (lines 135-138), the `delegatee`
claim (lines 141-142), and the capability subset check (lines 145-148),
which is Python `set(del_caps).issubset(set(orig_caps))`: every delegated
capability string must be literally present in the original list. -/
def verify_delegation_proof (proof : Claims) (delegatee : String) (original : Claims) :
    Except String Claims :=
  if ¬ decodeAudienceOk proof.aud delegatee then
    .error "Invalid audience"
  else if proof.iss ≠ original.iss then
    .error "Delegation proof iss does not match original token issuer"
  else if proof.sub ≠ original.sub then
    .error "Delegation proof sub must match original token sub"
  else if proof.delegatee ≠ some delegatee then
    .error "Delegation proof not intended for this server"
  else if ¬ (proof.capabilities.getD []).all
      (fun c => (original.capabilities.getD []).contains c) then
    .error "Delegated capabilities exceed original token capabilities"
  else
    .ok proof

/-- C5: the Capability Matcher grants `required` iff some granted entry
equals it, or some granted entry ends in `*` and its stem starts
`required`; and a granted bare `*` entry grants every requirement. -/
theorem c5_capability_matcher (payload : Claims) (required : String) :
    (has_capability payload required = true ↔
      ∃ g ∈ payload.capabilities.getD [],
        g = required ∨
          (pyEndsWith g "*" = true ∧ pyStartsWith required (pyDropLast g) = true)) ∧
    ("*" ∈ payload.capabilities.getD [] → has_capability payload required = true) := by
  constructor
  · simp [has_capability, List.any_eq_true, Bool.or_eq_true, Bool.and_eq_true, beq_iff_eq]
  · intro hmem
    have hstar : pyEndsWith "*" "*" = true := by decide
    have hdrop : pyDropLast "*" = "" := by decide
    have hnil : String.data "" = [] := by decide
    have hstem : pyStartsWith required (pyDropLast "*") = true := by
      rw [hdrop]
      show (String.data "").isPrefixOf required.data = true
      rw [hnil]
      simp [List.isPrefixOf]
    simp only [has_capability, List.any_eq_true]
    exact ⟨"*", hmem, by simp [hstar, hstem]⟩

/-- Witness for C5 at a concrete grant list and requirement. -/
theorem c5_capability_matcher_witness :
    has_capability { capabilities := some ["db:inventory:*", "*"] } "db:inventory:read" = true := by
  exact (c5_capability_matcher { capabilities := some ["db:inventory:*", "*"] }
    "db:inventory:read").2 (by decide)

/-- C9: a claims map with no `capabilities` field, or with an empty list
there, never grants any required capability. -/
theorem c9_empty_capabilities_deny (payload : Claims) (required : String)
    (h : payload.capabilities = none ∨ payload.capabilities = some []) :
    has_capability payload required = false := by
  rcases h with h | h <;> simp [has_capability, h]

/-- Witness for C9 at concrete tokens. -/
theorem c9_empty_capabilities_deny_witness :
    has_capability { capabilities := none } "db:inventory:read" = false ∧
    has_capability { capabilities := some [] } "tool:compute_pricing" = false :=
  ⟨c9_empty_capabilities_deny _ _ (Or.inl rfl),
   c9_empty_capabilities_deny _ _ (Or.inr rfl)⟩

/-- `middleware.CircuitBreaker` state (middleware.py lines 34-40).  The
source attribute `open` is rendered `isOpen` because `open` is a Lean
keyword.  `last_failure_time` starts as `None`. -/
structure CircuitBreaker where
  threshold : Nat
  recovery_time : Nat
  failure_count : Nat
  last_failure_time : Option Nat
  isOpen : Bool
deriving DecidableEq

/-- `CircuitBreaker.__init__`: zero failures, no failure time, closed. -/
def CircuitBreaker.init (threshold recovery_time : Nat) : CircuitBreaker :=
  ⟨threshold, recovery_time, 0, none, false⟩

/-- `CircuitBreaker.before_call` (middleware.py lines 42-47): when open,
admit only if strictly more than `recovery_time` elapsed since the last
failure; when closed, always admit.  The source reads `last_failure_time`
only when open, and the open state is only ever entered together with a
recorded failure time, so the `none` branch is unreachable. -/
def CircuitBreaker.before_call (cb : CircuitBreaker) (now : Nat) : Bool :=
  if cb.isOpen then
    match cb.last_failure_time with
    | some t => decide (now - t > cb.recovery_time)
    | none => false
  else
    true

/-- `CircuitBreaker.after_call` (middleware.py lines 49-57): success resets
the count and closes; failure increments the count, stamps the failure
time, and opens once the count reaches the threshold. -/
def CircuitBreaker.after_call (cb : CircuitBreaker) (now : Nat) (success : Bool) :
    CircuitBreaker :=
  if success then
    { cb with failure_count := 0, isOpen := false }
  else
    let fc := cb.failure_count + 1
    { cb with
      failure_count := fc
      last_failure_time := some now
      isOpen := (if cb.threshold ≤ fc then true else cb.isOpen) }

/-- `middleware.SimpleCache` store is a Python dict; modelled as a map. -/
def SimpleCache.get {α : Type} (store : String → Option α) (key : String) : Option α :=
  store key

/-- `SimpleCache.set` (middleware.py lines 28-29): `self.store[key] = value`.
The `ttl` argument is accepted and ignored, exactly as in the source. -/
def SimpleCache.set {α : Type} (store : String → Option α) (key : String) (value : α)
    (ttl : Option Nat) : String → Option α :=
  fun k => if k == key then some value else store k

/-- C8: recording any success closes the breaker and clears the
consecutive-failure count, whatever the prior state. -/
theorem c8_success_closes_breaker (cb : CircuitBreaker) (now : Nat) :
    (cb.after_call now true).isOpen = false ∧ (cb.after_call now true).failure_count = 0 := by
  simp [CircuitBreaker.after_call]

/-- A sequence of consecutive recorded failures at the given times. -/
def applyFailures (cb : CircuitBreaker) (times : List Nat) : CircuitBreaker :=
  times.foldl (fun s t => s.after_call t false) cb

/-- Enough consecutive failures to reach the threshold leave the breaker open. -/
theorem applyFailures_opens (times : List Nat) :
    ∀ cb : CircuitBreaker, cb.threshold ≤ cb.failure_count + times.length →
      times ≠ [] → (applyFailures cb times).isOpen = true := by
  induction times with
  | nil => intro cb _ hne; exact absurd rfl hne
  | cons t ts ih =>
    intro cb hth _
    simp only [applyFailures, List.foldl_cons]
    by_cases hts : ts = []
    · subst hts
      simp only [List.length_cons, List.length_nil] at hth
      simp [applyFailures, CircuitBreaker.after_call]
      omega
    · refine ih _ ?_ hts
      simp only [CircuitBreaker.after_call, if_neg (by simp : ¬ (false = true))]
      simp only [List.length_cons] at hth ⊢
      omega

/-- The Context/Tool server own name (context_tool_server.py line 32). -/
def SERVER_NAME : String := "ContextToolServer"

/-- A `context_entries` row (context_tool_server.py lines 39-43): bytes of
`serialized_value` (modelled as a list of byte values) and the nullable
`metadata_json` column. -/
structure ContextEntry where
  serialized_value : List Nat
  metadata_json : Option String
deriving DecidableEq

/-- The `ContextResponse` message built at lines 147-150. -/
structure ContextResponse where
  serialized_value : List Nat
  metadata : List String
deriving DecidableEq

/-- Observable outcome of a `RequestContext` call after the token checks
(stage 1 of the handler) have passed. -/
inductive RCOutcome
  | unavailable
  | success (resp : ContextResponse) (cache_hit : Bool)
  | dbError (msg : String)
deriving DecidableEq

/-- Insertion step of the model of Python `sorted` on strings. -/
def insertSorted (a : String) : List String → List String
  | [] => [a]
  | b :: bs => if a ≤ b then a :: b :: bs else b :: insertSorted a bs

/-- Model of Python `sorted` on a list of strings (insertion sort). -/
def pySorted : List String → List String
  | [] => []
  | a :: as => insertSorted a (pySorted as)

/-- The canonical cache key of line 121:
`f"context::{context_key}::{tuple(sorted(request.parameters.items()))}"`,
with the sorted parameter items rendered into the key string. -/
def contextCacheKey (context_key : String) (parameters : List (String × String)) : String :=
  "context::" ++ context_key ++ "::" ++
    String.intercalate "," (pySorted (parameters.map fun p => p.1 ++ "=" ++ p.2))

/-- Mutable module state of the Context/Tool server: the `CACHE` store and
the `CIRCUIT` breaker (context_tool_server.py lines 61-62). -/
structure ToolServerState where
  cache_store : String → Option ContextResponse
  circuit : CircuitBreaker

/-- `ContextToolServicer.RequestContext` (context_tool_server.py lines
85-174) after successful authentication, as a state transformer.  `db`
models the PostgreSQL read (`session.get`, an `Except` for a raised
database error) and `json_loads_list` models `json.loads` restricted to
list results: it returns `none` whenever `json.loads` raises, which is
the case on a `None` column and on invalid JSON; the bare `except` at
line 145-146 turns that into an empty metadata list.  Stages in source
order: circuit breaker guard (line 111), cache lookup (lines 120-131), DB
fetch with response construction, cache install with `ttl=60` and breaker
success (lines 133-162), or breaker failure and `INTERNAL` abort (lines
164-172). -/
def RequestContext (db : String → Except String (Option ContextEntry))
    (json_loads_list : Option String → Option (List String))
    (st : ToolServerState) (now : Nat)
    (context_key : String) (parameters : List (String × String)) :
    RCOutcome × ToolServerState :=
  if ¬ st.circuit.before_call now then
    (.unavailable, st)
  else
    let cache_key := contextCacheKey context_key parameters
    match SimpleCache.get st.cache_store cache_key with
    | some cached_resp => (.success cached_resp true, st)
    | none =>
      match db context_key with
      | .error e => (.dbError e, { st with circuit := st.circuit.after_call now false })
      | .ok entry? =>
        let serialized_and_metadata :=
          match entry? with
          | none => (([] : List Nat), ([] : List String))
          | some entry => (entry.serialized_value, (json_loads_list entry.metadata_json).getD [])
        let resp : ContextResponse :=
          ⟨serialized_and_metadata.1, serialized_and_metadata.2⟩
        let st' : ToolServerState :=
          { cache_store := SimpleCache.set st.cache_store cache_key resp (some 60)
            circuit := st.circuit.after_call now true }
        (.success resp false, st')

/-- C3 counterexample: breaker with `threshold = 3`, `recovery_time = 30`
(the servers parameters) opened by failures at times 10, 11, 12.  A call
at time 42 is at least `recovery_time` after the last failure (42 - 12 =
30), so the claim admits it as a probe; `before_call` rejects it, because
the source admits only strictly more than `recovery_time` after. -/
theorem c3_recovery_boundary_counterexample :
    (applyFailures (CircuitBreaker.init 3 30) [10, 11, 12]).isOpen = true ∧
    (applyFailures (CircuitBreaker.init 3 30) [10, 11, 12]).last_failure_time = some 12 ∧
    CircuitBreaker.before_call (applyFailures (CircuitBreaker.init 3 30) [10, 11, 12]) 42
      = false := by
  decide

/-- C3 (amended): `threshold` consecutive failures open the breaker; while
open, a call at most `recovery_time` after the last failure is rejected by
`before_call` and the handler pipeline returns `Unavailable` with the
state untouched; a call strictly more than `recovery_time` after the last
failure is admitted as a probe; a successful probe closes the breaker and
resets the count; a failing probe keeps it open and updates the failure
time. -/
theorem c3_circuit_breaker_amended :
    (∀ (cb : CircuitBreaker) (times : List Nat),
        cb.threshold ≤ cb.failure_count + times.length → times ≠ [] →
        (applyFailures cb times).isOpen = true) ∧
    (∀ (cb : CircuitBreaker) (now t : Nat),
        cb.isOpen = true → cb.last_failure_time = some t →
        now - t ≤ cb.recovery_time → cb.before_call now = false) ∧
    (∀ (db : String → Except String (Option ContextEntry))
        (json_loads_list : Option String → Option (List String))
        (st : ToolServerState) (now : Nat) (context_key : String)
        (parameters : List (String × String)),
        st.circuit.before_call now = false →
        RequestContext db json_loads_list st now context_key parameters = (.unavailable, st)) ∧
    (∀ (cb : CircuitBreaker) (now t : Nat),
        cb.isOpen = true → cb.last_failure_time = some t →
        cb.recovery_time < now - t → cb.before_call now = true) ∧
    (∀ (cb : CircuitBreaker) (now : Nat),
        (cb.after_call now true).isOpen = false ∧ (cb.after_call now true).failure_count = 0) ∧
    (∀ (cb : CircuitBreaker) (now : Nat), cb.isOpen = true →
        (cb.after_call now false).isOpen = true ∧
        (cb.after_call now false).last_failure_time = some now) := by
  refine ⟨fun cb times h hne => applyFailures_opens times cb h hne, ?_, ?_, ?_, ?_, ?_⟩
  · intro cb now t hopen hlast hle
    simp [CircuitBreaker.before_call, hopen, hlast]
    omega
  · intro db json_loads_list st now context_key parameters hreject
    simp [RequestContext, hreject]
  · intro cb now t hopen hlast hgt
    simp [CircuitBreaker.before_call, hopen, hlast]
    omega
  · intro cb now
    simp [CircuitBreaker.after_call]
  · intro cb now hopen
    have h1 : cb.after_call now false =
        { cb with
          failure_count := cb.failure_count + 1
          last_failure_time := some now
          isOpen := (if cb.threshold ≤ cb.failure_count + 1 then true else cb.isOpen) } := by
      simp [CircuitBreaker.after_call]
    rw [h1]
    refine ⟨?_, rfl⟩
    by_cases h : cb.threshold ≤ cb.failure_count + 1
    · simp [h]
    · simp [h, hopen]

/-- Witness for C3 (amended) at the server parameters (3 failures, 30 s). -/
theorem c3_circuit_breaker_amended_witness :
    (applyFailures (CircuitBreaker.init 3 30) [10, 11, 12]).isOpen = true ∧
    CircuitBreaker.before_call ⟨3, 30, 3, some 100, true⟩ 130 = false ∧
    RequestContext (fun _ => .ok none) (fun _ => none)
      ⟨fun _ => none, ⟨3, 30, 3, some 100, true⟩⟩ 120 "inventory" [] =
      (.unavailable, ⟨fun _ => none, ⟨3, 30, 3, some 100, true⟩⟩) ∧
    CircuitBreaker.before_call ⟨3, 30, 3, some 100, true⟩ 131 = true ∧
    ((⟨3, 30, 3, some 100, true⟩ : CircuitBreaker).after_call 200 true).isOpen = false ∧
    ((⟨3, 30, 3, some 100, true⟩ : CircuitBreaker).after_call 200 false).last_failure_time
      = some 200 :=
  ⟨c3_circuit_breaker_amended.1 (CircuitBreaker.init 3 30) [10, 11, 12] (by decide) (by decide),
   c3_circuit_breaker_amended.2.1 ⟨3, 30, 3, some 100, true⟩ 130 100 rfl rfl (by decide),
   c3_circuit_breaker_amended.2.2.1 (fun _ => .ok none) (fun _ => none)
     ⟨fun _ => none, ⟨3, 30, 3, some 100, true⟩⟩ 120 "inventory" [] (by decide),
   c3_circuit_breaker_amended.2.2.2.1 ⟨3, 30, 3, some 100, true⟩ 131 100 rfl rfl (by decide),
   (c3_circuit_breaker_amended.2.2.2.2.1 ⟨3, 30, 3, some 100, true⟩ 200).1,
   (c3_circuit_breaker_amended.2.2.2.2.2 ⟨3, 30, 3, some 100, true⟩ 200 rfl).2⟩

/-- Concrete database for the C4 run: every key holds one row. -/
def c4Db : String → Except String (Option ContextEntry) :=
  fun _ => .ok (some ⟨[7, 8], none⟩)

/-- Concrete JSON parse for the C4 run (the column is `None`, so
`json.loads` raises and the handler substitutes `[]`). -/
def c4Parse : Option String → Option (List String) :=
  fun _ => none

/-- Fresh Context/Tool server state: empty cache, breaker
`CircuitBreaker(threshold=3, recovery_time=30)` (lines 61-62). -/
def freshToolServerState : ToolServerState :=
  ⟨fun _ => none, CircuitBreaker.init 3 30⟩

/-- First `RequestContext` call of the C4 run, at time 0: a cache miss
that installs the response with `ttl=60`. -/
def c4FirstCall : RCOutcome × ToolServerState :=
  RequestContext c4Db c4Parse freshToolServerState 0 "inventory:prod_12345:stock_count" []

/-- C4: `SimpleCache.set` discards its `ttl` argument, and `get` never
consults a clock, so an entry installed with `ttl=60` at time 0 is still
served as a cache hit 1000000 s later: the lookup past `insert_time + ttl`
is a hit, not a miss, and the handler does not re-execute. -/
theorem c4_cache_never_expires :
    (∀ (store : String → Option ContextResponse) (key : String) (value : ContextResponse)
        (ttl₁ ttl₂ : Option Nat),
        SimpleCache.set store key value ttl₁ = SimpleCache.set store key value ttl₂) ∧
    c4FirstCall.1 = .success ⟨[7, 8], []⟩ false ∧
    (RequestContext c4Db c4Parse c4FirstCall.2 1000000 "inventory:prod_12345:stock_count" []).1
      = .success ⟨[7, 8], []⟩ true := by
  refine ⟨fun store key value ttl₁ ttl₂ => rfl, ?_, ?_⟩ <;> decide

/-- C10: when the fetched row has a `metadata_json` that `json.loads`
cannot parse — a `None` column (TypeError) or invalid JSON (ValueError),
both captured by `json_loads_list` returning `none` — the bare `except`
at lines 145-146 substitutes an empty metadata list and the call still
succeeds with the row bytes, instead of aborting with `Internal`. -/
theorem c10_metadata_json_tolerant
    (db : String → Except String (Option ContextEntry))
    (json_loads_list : Option String → Option (List String))
    (st : ToolServerState) (now : Nat) (context_key : String)
    (parameters : List (String × String)) (entry : ContextEntry)
    (hguard : st.circuit.before_call now = true)
    (hcache : st.cache_store (contextCacheKey context_key parameters) = none)
    (hdb : db context_key = .ok (some entry))
    (hparse : json_loads_list entry.metadata_json = none) :
    (RequestContext db json_loads_list st now context_key parameters).1 =
      .success ⟨entry.serialized_value, []⟩ false := by
  simp [RequestContext, SimpleCache.get, hguard, hcache, hdb, hparse]

/-- Witness for C10: a row whose `metadata_json` column is `NULL`, under a
fresh server state. -/
theorem c10_metadata_json_tolerant_witness :
    (RequestContext (fun _ => .ok (some ⟨[5], none⟩)) (fun _ => none)
      freshToolServerState 0 "inventory:prod_12345:stock_count" []).1 =
      .success ⟨[5], []⟩ false :=
  c10_metadata_json_tolerant (fun _ => .ok (some ⟨[5], none⟩)) (fun _ => none)
    freshToolServerState 0 "inventory:prod_12345:stock_count" [] ⟨[5], none⟩
    (by decide) rfl rfl rfl

/-- `event_bus_server.TOPIC_COUNTER` at process start (line 30): the empty
dict, i.e. every topic reads a count of 0 through `.get(topic, 0)`. -/
def TOPIC_COUNTER_init : String → Nat := fun _ => 0

/-- The sequence-number assignment of `EventBusServicer.Publish`
(event_bus_server.py lines 60-61): `seq = TOPIC_COUNTER.get(topic, 0) + 1`
followed by `TOPIC_COUNTER[topic] = seq`. -/
def publishSeq (counter : String → Nat) (topic : String) : Nat × (String → Nat) :=
  let seq := counter topic + 1
  (seq, fun t => if t == topic then seq else counter t)

/-- A run of authorized `Publish` calls, in order: each call records the
topic it published to and the `sequence_id` placed in its envelope. -/
def runPublishes (counter : String → Nat) : List String → List (String × Nat)
  | [] => []
  | topic :: rest =>
    let step := publishSeq counter topic
    (topic, step.1) :: runPublishes step.2 rest

/-- The sequence ids handed out to one topic, in publish order. -/
def topicSeqIds (topic : String) (published : List (String × Nat)) : List Nat :=
  published.filterMap fun p => if p.1 == topic then some p.2 else none

theorem runPublishes_topicSeqIds (t : String) (trace : List String) :
    ∀ counter : String → Nat,
      topicSeqIds t (runPublishes counter trace) =
        List.range' (counter t + 1) (trace.count t) := by
  induction trace with
  | nil => intro counter; simp [runPublishes, topicSeqIds, List.count_nil]
  | cons s rest ih =>
    intro counter
    by_cases hst : s = t
    · subst hst
      simp only [runPublishes, publishSeq, topicSeqIds, List.filterMap_cons,
        beq_self_eq_true, if_pos rfl]
      have hcnt : (s :: rest).count s = rest.count s + 1 := by
        simp [List.count_cons]
      rw [hcnt, List.range'_succ]
      have := ih (fun t' => if t' == s then counter s + 1 else counter t')
      simp only [topicSeqIds] at this
      rw [this]
      simp
    · have hbeq : (s == t) = false := by simp [hst]
      simp only [runPublishes, publishSeq, topicSeqIds, List.filterMap_cons, hbeq]
      have := ih (fun t' => if t' == s then counter s + 1 else counter t')
      simp only [topicSeqIds] at this
      have hctr : (if (t == s) = true then counter s + 1 else counter t) = counter t := by
        simp [Ne.symm hst]
      rw [hctr] at this
      have hcnt : (s :: rest).count t = rest.count t := by
        simp [List.count_cons, hst]
      rw [hcnt]
      simpa using this

/-- C6: from a fresh process, any interleaved run of authorized publishes
gives every topic the sequence ids 1, 2, ..., N in order, where N is the
number of publishes to that topic — so a single topic gets 1..N and the
counters of distinct topics are independent of each other. -/
theorem c6_publish_sequence_ids (trace : List String) (topic : String) :
    topicSeqIds topic (runPublishes TOPIC_COUNTER_init trace) =
      List.range' 1 (trace.count topic) := by
  have := runPublishes_topicSeqIds topic trace TOPIC_COUNTER_init
  simpa [TOPIC_COUNTER_init] using this

/-- A registry record as stored by `register_in_redis` and decoded by
`lookup_in_redis` (registry_server.py lines 36-63): the server name from
the key `mcp2:registry:<name>`, plus `grpc_url` and `capabilities`. -/
structure RegistryRecord where
  server_name : String
  grpc_url : String
  capabilities : List String
deriving DecidableEq

/-- The per-capability test of `lookup_in_redis` line 53:
`cap == cap_filter or (cap.endswith("*") and cap_filter.startswith(cap[:-1]))`. -/
def capFilterMatch (cap cap_filter : String) : Bool :=
  cap == cap_filter || (pyEndsWith cap "*" && pyStartsWith cap_filter (pyDropLast cap))

/-- Lines 51-62: the record is emitted when some filter is matched by some
stored capability; the `for`/`else`/`break` control flow appends the
record once, at the first matching filter, and then moves to the next key. -/
def recordMatchesFilters (caps : List String) (cap_filters : List String) : Bool :=
  cap_filters.any fun f => caps.any fun cap => capFilterMatch cap f

/-- `lookup_in_redis` (registry_server.py lines 45-63): scan the keyspace
in order, keeping each record that matches the filters, once. -/
def lookup_in_redis (records : List RegistryRecord) (cap_filters : List String) :
    List RegistryRecord :=
  records.filter fun r => recordMatchesFilters r.capabilities cap_filters

/-- `DiscoveryServicer.Lookup` (registry_server.py lines 107-138) after
the requester token has been verified and `registry:lookup` granted: the
capability scan, then the audience filter of lines 122-129 which keeps
only endpoints whose `server_name` the callers `aud` names. -/
def Lookup (records : List RegistryRecord) (cap_filters : List String) (payload : Claims) :
    List RegistryRecord :=
  (lookup_in_redis records cap_filters).filter fun r => has_audience payload r.server_name

/-- C7: `Lookup` returns exactly the registered records with a stored
capability matching a requested filter (exactly or by trailing-`*`
wildcard) whose `server_name` the callers `aud` matches; each record at
most once when the store holds each record once; and for records `A`, `B`
both matching the filter and a caller with `aud = ["A"]`, only the `A`
endpoint is returned. -/
theorem c7_lookup_filters (records : List RegistryRecord) (cap_filters : List String)
    (payload : Claims) (r : RegistryRecord) (hnd : records.Nodup) :
    (r ∈ Lookup records cap_filters payload ↔
      r ∈ records ∧ recordMatchesFilters r.capabilities cap_filters = true ∧
        has_audience payload r.server_name = true) ∧
    (Lookup records cap_filters payload).count r ≤ 1 ∧
    Lookup [⟨"A", "urlA", ["db:inventory:read"]⟩, ⟨"B", "urlB", ["db:inventory:read"]⟩]
      ["db:inventory:read"] { aud := .list ["A"] } = [⟨"A", "urlA", ["db:inventory:read"]⟩] := by
  refine ⟨?_, ?_, by decide⟩
  · simp only [Lookup, lookup_in_redis, List.mem_filter, and_assoc]
  · exact List.nodup_iff_count_le_one.mp ((hnd.filter _).filter _) r

/-- Witness for C7: the two-record audience-filter scenario. -/
theorem c7_lookup_filters_witness :
    (⟨"A", "urlA", ["db:inventory:read"]⟩ : RegistryRecord) ∈
      Lookup [⟨"A", "urlA", ["db:inventory:read"]⟩, ⟨"B", "urlB", ["db:inventory:read"]⟩]
        ["db:inventory:read"] { aud := .list ["A"] } ∧
    Lookup [⟨"A", "urlA", ["db:inventory:read"]⟩, ⟨"B", "urlB", ["db:inventory:read"]⟩]
      ["db:inventory:read"] { aud := .list ["A"] } = [⟨"A", "urlA", ["db:inventory:read"]⟩] :=
  ⟨((c7_lookup_filters [⟨"A", "urlA", ["db:inventory:read"]⟩, ⟨"B", "urlB", ["db:inventory:read"]⟩]
        ["db:inventory:read"] { aud := .list ["A"] } ⟨"A", "urlA", ["db:inventory:read"]⟩
        (by decide)).1).mpr ⟨by decide, by decide, by decide⟩,
   (c7_lookup_filters [⟨"A", "urlA", ["db:inventory:read"]⟩, ⟨"B", "urlB", ["db:inventory:read"]⟩]
        ["db:inventory:read"] { aud := .list ["A"] } ⟨"A", "urlA", ["db:inventory:read"]⟩
        (by decide)).2.2⟩

/-- Accumulate decimal digits; any non-digit character fails the parse. -/
def pyParseDigits (cs : List Char) : Option Nat :=
  cs.foldl
    (fun acc c => acc.bind fun n => if c.isDigit then some (n * 10 + (c.toNat - 48)) else none)
    (some 0)

/-- Model of Python `int(s)` on decimal literals: an optional leading `-`
followed by at least one digit; anything else raises `ValueError`,
modelled as `none`. -/
def pyParseInt (s : String) : Option Int :=
  match s.data with
  | [] => none
  | '-' :: rest => if rest = [] then none else (pyParseDigits rest).map fun n => -(n : Int)
  | cs => (pyParseDigits cs).map fun n => (n : Int)

/-- Model of Python `str()` on a float holding an integral value, which
renders as `"<n>.0"`.  Only integral values reach this function in the
development (for `stock_count = 10`, `0.1 * 10` is exactly `1.0` in
binary64, so `100.0 - 0.1 * 10` is exactly `99.0`); floats are modelled
as rationals. -/
def pyFloatStr (q : ℚ) : String :=
  if q.den = 1 then toString q.num ++ ".0" else toString q

/-- The `compute_pricing` body of `InvokeTool` (context_tool_server.py
lines 324-328): parse `stock_count` (default `"0"`), compute
`max(0.0, 100.0 - 0.1 * stock)` and render it.  A parse failure is the
uncaught `ValueError` of `int(...)`. -/
def compute_pricing_outputs (arguments : List (String × String)) :
    Except String (List (String × String)) :=
  match pyParseInt ((arguments.lookup "stock_count").getD "0") with
  | none => .error "invalid literal for int"
  | some stock =>
    .ok [("recommended_price", pyFloatStr (max 0 (100 - (1 / 10 : ℚ) * (stock : ℚ))))]

/-- Observable outcome of an `InvokeTool` call. -/
inductive ToolOutcome
  | authFailed (msg : String)
  | unavailable
  | toolError (msg : String)
  | success (outputs : List (String × String)) (warnings : List String)
deriving DecidableEq

/-- `ContextToolServicer.InvokeTool` (context_tool_server.py lines
279-340) given the decoded payload of an already-signature-valid
`capability_token` and the decoded claims of the optional delegation
proof.  Source order: the capability check with delegation fallback
(lines 289-297), the audience check (lines 299-300) — every abort raised
inside the `try` of lines 287-301 is re-raised as `UNAUTHENTICATED` by the
`except` at lines 302-309, collected here as `authFailed` — then the
circuit breaker guard (line 311), the tool body (lines 321-331), and the
breaker success record (line 332). -/
def InvokeTool (payload : Claims) (agent_delegation_proof : Option Claims)
    (tool_name : String) (arguments : List (String × String))
    (circuit : CircuitBreaker) (now : Nat) : ToolOutcome × CircuitBreaker :=
  let required_cap := "tool:" ++ tool_name
  let authorized : Except String Claims :=
    if has_capability payload required_cap then .ok payload
    else
      match agent_delegation_proof with
      | none => .error ("Token lacks " ++ required_cap)
      | some proof =>
        match verify_delegation_proof proof SERVER_NAME payload with
        | .error e => .error e
        | .ok delegated_payload =>
          if ¬ (delegated_payload.capabilities.getD []).contains required_cap then
            .error ("Delegation proof lacks " ++ required_cap)
          else
            .ok delegated_payload
  match authorized with
  | .error e => (.authFailed e, circuit)
  | .ok p =>
    if ¬ has_audience p SERVER_NAME then
      (.authFailed ("Token not for " ++ SERVER_NAME), circuit)
    else if ¬ circuit.before_call now then
      (.unavailable, circuit)
    else
      let body : Except String (List (String × String) × List String) :=
        if tool_name == "compute_pricing" then
          (compute_pricing_outputs arguments).map fun outputs => (outputs, [])
        else
          .ok ([], ["Tool " ++ tool_name ++ " not recognized"])
      match body with
      | .error e => (.toolError e, circuit)
      | .ok result => (.success result.1 result.2, circuit.after_call now true)

/-- The parent token of the delegation scenario: caps `["tool:*"]`, aud
`ContextToolServer`. -/
def parentClaims : Claims :=
  { iss := some "https://your-idp.example.com"
    sub := some "agent-alice"
    aud := .list ["ContextToolServer"]
    capabilities := some ["tool:*"] }

/-- The delegation token of the scenario: caps `["tool:compute_pricing"]`,
same `iss` and `sub`, `delegatee = ContextToolServer`, valid audience. -/
def delegationClaims : Claims :=
  { iss := some "https://your-idp.example.com"
    sub := some "agent-alice"
    aud := .list ["ContextToolServer"]
    delegatee := some "ContextToolServer"
    capabilities := some ["tool:compute_pricing"] }

/-- C1 counterexample: the parent grants `tool:compute_pricing` under the
Capability Matcher (via its `tool:*` wildcard), yet
`verify_delegation_proof` rejects the delegation, because its subset
check is plain string-set inclusion and `"tool:compute_pricing"` is not
literally an element of `["tool:*"]`; the claim says this delegation is
accepted. -/
theorem c1_wildcard_delegation_counterexample :
    has_capability parentClaims "tool:compute_pricing" = true ∧
    verify_delegation_proof delegationClaims "ContextToolServer" parentClaims =
      .error "Delegated capabilities exceed original token capabilities" := by
  constructor
  · decide
  · rfl

/-- C1 (amended): `verify_delegation_proof` accepts a delegation only if
every capability string in the delegation list is literally present in
the parent list (exact string equality, which in particular implies each
is matched by the parent under the Capability Matcher); wildcard coverage
is not honoured, so the parent `["tool:*"]` / delegation
`["tool:compute_pricing"]` proof is rejected.  Nevertheless
`InvokeTool("compute_pricing", {"sku": "x", "stock_count": "10"})` under
that parent token returns success with `recommended_price = "99.0"` for
any supplied delegation proof, because the parent token itself grants
`tool:compute_pricing` and the proof is never consulted. -/
theorem c1_delegation_amended :
    (∀ (proof : Claims) (delegatee : String) (original dp : Claims),
        verify_delegation_proof proof delegatee original = .ok dp →
        dp = proof ∧
          ∀ c ∈ proof.capabilities.getD [],
            c ∈ original.capabilities.getD [] ∧ has_capability original c = true) ∧
    verify_delegation_proof delegationClaims "ContextToolServer" parentClaims =
      .error "Delegated capabilities exceed original token capabilities" ∧
    (∀ (agent_delegation_proof : Option Claims) (now : Nat),
        (InvokeTool parentClaims agent_delegation_proof "compute_pricing"
            [("sku", "x"), ("stock_count", "10")] (CircuitBreaker.init 3 30) now).1 =
          .success [("recommended_price", "99.0")] []) := by
  refine ⟨?_, rfl, ?_⟩
  · intro proof delegatee original dp hok
    unfold verify_delegation_proof at hok
    split_ifs at hok with h1 h2 h3 h4 h5 <;> cases hok
    have hall : ∀ c ∈ proof.capabilities.getD [],
        (original.capabilities.getD []).contains c = true := by
      simpa [List.all_eq_true] using h5
    refine ⟨rfl, fun c hc => ?_⟩
    have hmem : c ∈ original.capabilities.getD [] := by
      simpa using hall c hc
    refine ⟨hmem, ?_⟩
    simp only [has_capability, List.any_eq_true]
    exact ⟨c, hmem, by simp⟩
  · intro agent_delegation_proof now
    have hcap : has_capability parentClaims "tool:compute_pricing" = true := by decide
    have haud : has_audience parentClaims SERVER_NAME = true := by decide
    have hguard : (CircuitBreaker.init 3 30).before_call now = true := by
      simp [CircuitBreaker.init, CircuitBreaker.before_call]
    have harg : ((([("sku", "x"), ("stock_count", "10")] :
        List (String × String)).lookup "stock_count").getD "0") = "10" := by decide
    have hparse : pyParseInt "10" = some 10 := by decide
    have h99 : ((100 : ℚ) - 1) = 99 := by norm_num
    have hfmt : pyFloatStr 99 = "99.0" := by decide
    have haud2 : has_audience parentClaims "ContextToolServer" = true := by decide
    simp only [InvokeTool, SERVER_NAME]
    simp [hcap, haud, haud2, hguard, compute_pricing_outputs, harg, hparse, h99, hfmt,
      Except.map]

/-- A parent whose capability list contains the delegated capability
literally, so the delegation subset check passes. -/
def c1ExactParent : Claims :=
  { iss := some "https://your-idp.example.com"
    sub := some "agent-alice"
    aud := .list ["ContextToolServer"]
    capabilities := some ["tool:compute_pricing"] }

/-- Witness for C1 (amended): an accepted exact-subset delegation, and
the concrete InvokeTool run with the wildcard parent. -/
theorem c1_delegation_amended_witness :
    (delegationClaims = delegationClaims ∧
      ∀ c ∈ delegationClaims.capabilities.getD [],
        c ∈ c1ExactParent.capabilities.getD [] ∧ has_capability c1ExactParent c = true) ∧
    (InvokeTool parentClaims (some delegationClaims) "compute_pricing"
        [("sku", "x"), ("stock_count", "10")] (CircuitBreaker.init 3 30) 0).1 =
      .success [("recommended_price", "99.0")] [] :=
  ⟨c1_delegation_amended.1 delegationClaims "ContextToolServer" c1ExactParent delegationClaims
      (by rfl),
   c1_delegation_amended.2.2 (some delegationClaims) 0⟩

/-- `auth.JWKS_TTL_SECONDS` (auth.py line 18). -/
def JWKS_TTL_SECONDS : Nat := 3600

/-- The module-level JWKS cache of auth.py (lines 16-17): `_JWKS_CACHE`
(a key set, modelled by its list of `kid` values; `none` before the first
fetch) and `_JWKS_LAST_FETCH`. -/
structure JwksState where
  jwks_cache : Option (List String)
  last_fetch : Nat
deriving DecidableEq

/-- `auth._fetch_jwks` (auth.py lines 23-31): fetch from the discovery
endpoint — whose current key set is `endpoint_keys` — only when there is
no cached set or the cache is older than the TTL; otherwise serve the
cache.  The third component records whether a network fetch happened. -/
def fetch_jwks (endpoint_keys : List String) (now : Nat) (st : JwksState) :
    List String × JwksState × Bool :=
  if st.jwks_cache.isNone ∨ JWKS_TTL_SECONDS < now - st.last_fetch then
    (endpoint_keys, ⟨some endpoint_keys, now⟩, true)
  else
    (st.jwks_cache.getD [], st, false)

/-- `jwks.get("keys", [])` scan of auth.py lines 51-54 and 59-62. -/
def findKid (keys : List String) (kid : String) : Option String :=
  keys.find? fun k => k == kid

/-- The key-resolution portion of `auth.verify_jwt_token` (auth.py lines
43-64), returning the located key (or the unknown-kid error), the
resulting module cache state, and how many network fetches the call
performed.  The statement `_JWKS_LAST_FETCH = 0` at line 57 carries no
`global` declaration: Python therefore binds a function-local name, the
module-level timestamp keeps its value, and the retry at line 58 consults
`_fetch_jwks` with the cache state unchanged — the translation reflects
those actual semantics. -/
def resolveSigningKey (endpoint_keys : List String) (now : Nat) (st : JwksState)
    (kid : String) : Except String String × JwksState × Nat :=
  let step1 := fetch_jwks endpoint_keys now st
  match findKid step1.1 kid with
  | some k => (.ok k, step1.2.1, cond step1.2.2 1 0)
  | none =>
    let step2 := fetch_jwks endpoint_keys now step1.2.1
    match findKid step2.1 kid with
    | some k => (.ok k, step2.2.1, cond step1.2.2 1 0 + cond step2.2.2 1 0)
    | none =>
      (.error ("Unable to find matching JWK for kid: " ++ kid), step2.2.1,
        cond step1.2.2 1 0 + cond step2.2.2 1 0)

/-- C2: with a fresh cache (fetched 1000 s ago, TTL 3600 s) that holds
only `k1`, while the discovery endpoint already serves the rotated set
`[k1, k2]`, verifying a token with `kid = k2` performs no network fetch
at all — the `force re-fetch` of line 57 updates a function-local name,
not the module timestamp — and fails with the unknown-kid error even
though one real refresh would find `k2`.  The claim says exactly one
TTL-bypassing refresh happens and the lookup then succeeds. -/
theorem c2_forced_refresh_never_happens :
    resolveSigningKey ["k1", "k2"] 2000 ⟨some ["k1"], 1000⟩ "k2" =
      (.error "Unable to find matching JWK for kid: k2", ⟨some ["k1"], 1000⟩, 0) ∧
    findKid ["k1", "k2"] "k2" = some "k2" := by
  constructor
  · rfl
  · rfl
